import Mathlib

/-!
Shallow embedding of the Flask/SQLAlchemy e-commerce app (`src/app.py`).

The application exposes CRUD endpoints over three entities (Customer,
Products, Orders) plus a pure association table `order_products`.  We embed
the persistence state as lists of records, marshmallow validation as a
function from a typed payload (a record of `Option` fields: `none` means the
key is absent from the JSON body) to either a validation-error body or the
loaded field map, and each Flask handler as a function from the state (and
the payload / path id) to a result and a successor state.

A handler outcome is `Except String (Nat × Json)`:
* `Except.ok (status, body)` models a normal `(jsonify(...), status)` return
  (Flask's default status is 200 when none is given);
* `Except.error msg` models an unhandled Python exception escaping the
  handler (`KeyError` from indexing a dict key that the validated payload
  did not contain, `AttributeError` from dereferencing a `None` query
  result, SQLAlchemy's `FlushError` raised by `_verify_canload` when a
  `None` value sits in a relationship collection at flush time).

Dates are modelled as `Nat` day numbers; `date.today()` becomes an explicit
`today` parameter of `add_order`.
-/

namespace EcomApp

/-- JSON values as produced by flask's `jsonify`.  Object key order follows
the order the Python code builds the dict in (marshmallow dumps in
`Meta.fields` order). -/
inductive Json where
  | str : String → Json
  | num : Nat → Json
  | flt : Float → Json
  | arr : List Json → Json
  | obj : List (String × Json) → Json
deriving Repr

/-- Row of the `customer` table (`class Customer`): id (PK), customer_name,
email, phone, address (nullable, never set by any handler). -/
structure Customer where
  id : Nat
  customer_name : String
  email : String
  phone : String
  address : Option String
deriving Repr, DecidableEq

/-- Row of the `products` table (`class Products`): id (PK), product_name, price. -/
structure Products where
  id : Nat
  product_name : String
  price : Float
deriving Repr

/-- Row of the `orders` table (`class Orders`): id (PK), order_date, customer_id. -/
structure Orders where
  id : Nat
  order_date : Nat
  customer_id : Nat
deriving Repr, DecidableEq

/-- The relational store: the three entity tables, the `order_products`
association table (order_id, product_id pairs), and the auto-increment
counters for the two primary keys the handlers generate. -/
structure DBState where
  customers : List Customer
  products : List Products
  orders : List Orders
  order_products : List (Nat × Nat)
  next_customer_id : Nat
  next_order_id : Nat
deriving Repr

/-- A request body for the customer endpoints, restricted to the fields
`CustomerSchema` declares (`Meta.fields = ('id', 'customer_name', 'email',
'phone')`); `none` means the key is absent from the JSON. -/
structure CustomerPayload where
  id : Option Nat
  customer_name : Option String
  email : Option String
  phone : Option String
deriving Repr, DecidableEq

/-- Validation, `customer_schema.load`: `customer_name` is the only required field
(`fields.String(required= True)`); `id`, `email`, `phone` are optional.  On
success marshmallow returns the dict of exactly the keys present in the
payload, which is the payload itself in this typed embedding. -/
def customer_schema_load (p : CustomerPayload) : Except Json CustomerPayload :=
  if p.customer_name.isSome then Except.ok p
  else Except.error
    (Json.obj [("customer_name", Json.arr [Json.str "Missing data for required field."])])

/-- A request body for `POST /orders`, restricted to the fields
`OrderSchema` exposes (`Meta.fields = ('id', 'order_date', 'customer_id',
'items')`). -/
structure OrderPayload where
  id : Option Nat
  order_date : Option Nat
  customer_id : Option Nat
  items : Option (List Nat)
deriving Repr, DecidableEq

/-- Validation, `order_schema.load`: `customer_id` is the only required field; `items`
appears only in `Meta.fields` (an inferred field), hence is not required. -/
def order_schema_load (p : OrderPayload) : Except Json OrderPayload :=
  if p.customer_id.isSome then Except.ok p
  else Except.error
    (Json.obj [("customer_id", Json.arr [Json.str "Missing data for required field."])])

/-- Serialization, `customer_schema.jsonify`, of one entity: dumps the `Meta.fields`
`('id', 'customer_name', 'email', 'phone')`. -/
def customerDump (c : Customer) : Json :=
  Json.obj [("id", Json.num c.id), ("customer_name", Json.str c.customer_name),
            ("email", Json.str c.email), ("phone", Json.str c.phone)]

/-- Serialization by `product_schema` of one entity: `('id', 'product_name', 'price')`. -/
def productDump (p : Products) : Json :=
  Json.obj [("id", Json.num p.id), ("product_name", Json.str p.product_name),
            ("price", Json.flt p.price)]

/-- A handler outcome: a normal `(status, body)` response, or an unhandled
Python exception described by a message. -/
abbrev HandlerResult := Except String (Nat × Json)

/-- Handler for `GET /customers/<id>` (`get_customer`): point lookup
`select(Customer).where(Customer.id == id)`, `.first()`; 404 with
`{'Error': "Customer not found!"}` when absent, else the schema dump. -/
def get_customer (st : DBState) (id : Nat) : Nat × Json :=
  match st.customers.find? (fun c => c.id == id) with
  | none => (404, Json.obj [("Error", Json.str "Customer not found!")])
  | some c => (200, customerDump c)

/-- Handler for `POST /customers` (`add_customer`): validate, then build
`Customer(customer_name= d['customer_name'], email= d['email'],
phone= d['phone'])` — each bracket access raises `KeyError` when the
validated payload did not contain that key (arguments are evaluated left to
right) — then add, commit, and return 201. -/
def add_customer (st : DBState) (p : CustomerPayload) : HandlerResult × DBState :=
  match customer_schema_load p with
  | Except.error msgs => (Except.ok (400, msgs), st)
  | Except.ok d =>
    match d.customer_name with
    | none => (Except.error "KeyError: customer_name", st)
    | some name =>
      match d.email with
      | none => (Except.error "KeyError: email", st)
      | some em =>
        match d.phone with
        | none => (Except.error "KeyError: phone", st)
        | some ph =>
          let c : Customer :=
            { id := st.next_customer_id, customer_name := name,
              email := em, phone := ph, address := none }
          (Except.ok (201, Json.obj [("Message", Json.str "New customer added successfully!")]),
           { st with customers := st.customers ++ [c],
                     next_customer_id := st.next_customer_id + 1 })

/-- The `setattr` loop of `update_customer`: overwrite exactly the
attributes named by the keys present in the validated payload. -/
def applyUpdate (c : Customer) (d : CustomerPayload) : Customer :=
  let c1 := match d.id with | some v => { c with id := v } | none => c
  let c2 := match d.customer_name with | some v => { c1 with customer_name := v } | none => c1
  let c3 := match d.email with | some v => { c2 with email := v } | none => c2
  match d.phone with | some v => { c3 with phone := v } | none => c3

/-- Replace the first element whose `id` column matches (the row the
`scalar()` point lookup returned and `setattr` mutated in place). -/
def replaceFirst (l : List Customer) (id : Nat) (f : Customer → Customer) : List Customer :=
  match l with
  | [] => []
  | c :: cs => if c.id == id then f c :: cs else c :: replaceFirst cs id f

/-- Handler for `PUT /customers/<id>` (`update_customer`): point lookup (404 with
`{"Error": "Customer not found"}` if absent), validate (400 on failure),
`setattr` each present field onto the fetched row, commit, and return the
message body with Flask's default status 200. -/
def update_customer (st : DBState) (id : Nat) (p : CustomerPayload) :
    HandlerResult × DBState :=
  match st.customers.find? (fun c => c.id == id) with
  | none => (Except.ok (404, Json.obj [("Error", Json.str "Customer not found")]), st)
  | some _ =>
    match customer_schema_load p with
    | Except.error msgs => (Except.ok (400, msgs), st)
    | Except.ok d =>
      (Except.ok (200, Json.obj [("Message", Json.str "Customer details have been updated")]),
       { st with customers := replaceFirst st.customers id (fun c => applyUpdate c d) })

/-- Handler for `DELETE /customers/<id>` (`delete_customer`): execute
`delete(Customer).where(Customer.id == id)`; when `rowcount == 0` return
404 with `{"Message": "Customer not found!"}` WITHOUT committing, else
commit and return 200 with `{"Messgae": "Customer sucessfully deleted!
Wow!"}` (both keys exactly as spelled in the source).  The final `Bool`
records whether `db.session.commit()` was issued. -/
def delete_customer (st : DBState) (id : Nat) : (Nat × Json) × DBState × Bool :=
  let rowcount := (st.customers.filter (fun c => c.id == id)).length
  if rowcount == 0 then
    ((404, Json.obj [("Message", Json.str "Customer not found!")]), st, false)
  else
    ((200, Json.obj [("Messgae", Json.str "Customer sucessfully deleted! Wow!")]),
     { st with customers := st.customers.filter (fun c => !(c.id == id)) }, true)

/-- Handler for `POST /orders` (`add_order`): validate (`customer_id` required), build
`Orders(order_date= date.today(), customer_id= d['customer_id'])`, then
iterate `d['items']` — a `KeyError` when the payload had no `items` key —
looking each product up by id and appending the `scalar()` result (possibly
`None`) to `new_order.products`; `commit()` flushes, and SQLAlchemy's
`_verify_canload` raises `FlushError` if any collection element is `None`;
otherwise the order row and one association row per appended product are
inserted and a 201 is returned. -/
def add_order (st : DBState) (today : Nat) (p : OrderPayload) :
    HandlerResult × DBState :=
  match order_schema_load p with
  | Except.error msgs => (Except.ok (400, msgs), st)
  | Except.ok d =>
    match d.customer_id with
    | none => (Except.error "KeyError: customer_id", st)
    | some cid =>
      match d.items with
      | none => (Except.error "KeyError: items", st)
      | some items =>
        let looked := items.map (fun i => st.products.find? (fun pr => pr.id == i))
        if looked.any (fun o => o.isNone) then
          (Except.error "FlushError: Can't flush None value found in collection Orders.products", st)
        else
          let o : Orders := { id := st.next_order_id, order_date := today, customer_id := cid }
          (Except.ok (201, Json.obj [("Message", Json.str "New order placed!")]),
           { st with orders := st.orders ++ [o],
                     order_products := st.order_products ++
                       looked.filterMap (fun x => x.map (fun pr => (st.next_order_id, pr.id))),
                     next_order_id := st.next_order_id + 1 })

/-- The products attached to an order through the `order_products`
association table. -/
def orderProductsOf (st : DBState) (oid : Nat) : List Products :=
  (st.order_products.filter (fun r => r.1 == oid)).filterMap
    (fun r => st.products.find? (fun p => p.id == r.2))

/-- Handler for `GET /order_items/<id>` (`order_items`): `scalar()` point lookup on
orders, then `order.products` is dereferenced with no `None` check — an
absent id makes `order` be `None` and the attribute access raise
`AttributeError` instead of producing any response. -/
def order_items (st : DBState) (id : Nat) : HandlerResult :=
  match st.orders.find? (fun o => o.id == id) with
  | none => Except.error "AttributeError: NoneType object has no attribute products"
  | some o => Except.ok (200, Json.arr ((orderProductsOf st o.id).map productDump))

/-- Does a body have the shape `{"Error": "<text>"}` — a JSON object whose
(single) key is `"Error"` with a string value? -/
def isErrorBody : Json → Bool
  | Json.obj [(k, Json.str _)] => k == "Error"
  | _ => false

/-- A freshly created store: empty tables, auto-increment counters at 1. -/
def emptyState : DBState :=
  { customers := [], products := [], orders := [], order_products := [],
    next_customer_id := 1, next_order_id := 1 }

/-- A concrete customer row used by the concrete test states. -/
def annC : Customer :=
  { id := 1, customer_name := "Ann", email := "ann@x.io", phone := "555-0100",
    address := none }

/-- A concrete product row used by the concrete test states. -/
def penP : Products := { id := 1, product_name := "Pen", price := 2.5 }

/-- A store holding exactly one customer (id 1). -/
def oneCustomerState : DBState :=
  { customers := [annC], products := [], orders := [], order_products := [],
    next_customer_id := 2, next_order_id := 1 }

/-- A store holding one customer (id 1) and one product (id 1). -/
def shopState : DBState :=
  { customers := [annC], products := [penP], orders := [], order_products := [],
    next_customer_id := 2, next_order_id := 1 }

/-- A `POST /customers` payload that omits the optional email and phone keys. -/
def nameOnlyPayload : CustomerPayload :=
  { id := none, customer_name := some "Alice", email := none, phone := none }

theorem find_append_fresh (l : List Customer) (c : Customer) (id : Nat)
    (h : ∀ x ∈ l, x.id ≠ id) (hc : c.id = id) :
    (l ++ [c]).find? (fun x => x.id == id) = some c := by
  induction l with
  | nil => simp [List.find?, hc]
  | cons a l ih =>
      have ha : (a.id == id) = false := beq_eq_false_iff_ne.mpr (h a (by simp))
      simp [List.find?, ha, ih (fun x hx => h x (by simp [hx]))]

theorem find_replaceFirst (l : List Customer) (id : Nat) (f : Customer → Customer)
    (c : Customer) (hc : l.find? (fun x => x.id == id) = some c)
    (hf : (f c).id = c.id) :
    (replaceFirst l id f).find? (fun x => x.id == id) = some (f c) := by
  induction l with
  | nil => simp [List.find?] at hc
  | cons a l ih =>
      cases ha : (a.id == id) with
      | false =>
          have hc' : l.find? (fun x => x.id == id) = some c := by
            simpa [List.find?, ha] using hc
          simp [replaceFirst, ha, List.find?, ih hc']
      | true =>
          have hac : a = c := by simpa [List.find?, ha] using hc
          subst hac
          simp [replaceFirst, ha, List.find?, hf]

theorem mem_replaceFirst (l : List Customer) (id : Nat) (f : Customer → Customer)
    (c : Customer) (hc : l.find? (fun x => x.id == id) = some c) :
    f c ∈ replaceFirst l id f := by
  induction l with
  | nil => simp [List.find?] at hc
  | cons a l ih =>
      cases ha : (a.id == id) with
      | false =>
          have hc' : l.find? (fun x => x.id == id) = some c := by
            simpa [List.find?, ha] using hc
          simp [replaceFirst, ha, ih hc']
      | true =>
          have hac : a = c := by simpa [List.find?, ha] using hc
          subst hac
          simp [replaceFirst, ha]

theorem get_customer_of_find (st : DBState) (id : Nat) (c : Customer)
    (h : st.customers.find? (fun x => x.id == id) = some c) :
    get_customer st id = (200, customerDump c) := by
  unfold get_customer
  rw [h]

/-- C1 counterexample: the payload `{"customer_name": "Alice"}` omits the
optional email and phone fields and passes `CustomerSchema` validation, yet
`add_customer` raises `KeyError` at `customer_data['email']` instead of
returning 201, and no customer row is created. -/
theorem C1_counterexample :
    customer_schema_load nameOnlyPayload = Except.ok nameOnlyPayload ∧
    (add_customer emptyState nameOnlyPayload).1 = Except.error "KeyError: email" ∧
    (add_customer emptyState nameOnlyPayload).2.customers = [] :=
  ⟨rfl, rfl, rfl⟩

/-- C1 (amended): for every valid Customer payload that supplies all of
customer_name, email, and phone, `POST /customers` returns 201 and creates
the customer, and `GET /customers/<new id>` then returns a 200 body whose
customer_name, email, and phone equal the submitted fields; a valid payload
that omits email or phone instead makes the handler raise `KeyError` (no
201, no row).  The freshness hypothesis says the auto-increment counter has
not yet been used by an existing row. -/
theorem C1_round_trip (st : DBState) (name em ph : String)
    (hfresh : ∀ c ∈ st.customers, c.id ≠ st.next_customer_id) :
    (add_customer st ⟨none, some name, some em, some ph⟩).1 =
      Except.ok (201, Json.obj [("Message", Json.str "New customer added successfully!")]) ∧
    get_customer (add_customer st ⟨none, some name, some em, some ph⟩).2 st.next_customer_id =
      (200, Json.obj [("id", Json.num st.next_customer_id),
                      ("customer_name", Json.str name),
                      ("email", Json.str em), ("phone", Json.str ph)]) := by
  constructor
  · rfl
  · exact get_customer_of_find (add_customer st ⟨none, some name, some em, some ph⟩).2
      st.next_customer_id
      { id := st.next_customer_id, customer_name := name, email := em,
        phone := ph, address := none }
      (find_append_fresh st.customers
        { id := st.next_customer_id, customer_name := name, email := em,
          phone := ph, address := none } st.next_customer_id hfresh rfl)

/-- Witness for C1: the round trip evaluated on the empty store. -/
theorem C1_round_trip_witness :
    (add_customer emptyState ⟨none, some "Bo", some "bo@x.io", some "555"⟩).1 =
      Except.ok (201, Json.obj [("Message", Json.str "New customer added successfully!")]) ∧
    get_customer (add_customer emptyState ⟨none, some "Bo", some "bo@x.io", some "555"⟩).2 1 =
      (200, Json.obj [("id", Json.num 1), ("customer_name", Json.str "Bo"),
                      ("email", Json.str "bo@x.io"), ("phone", Json.str "555")]) :=
  C1_round_trip emptyState "Bo" "bo@x.io" "555" (by decide)

/-- C2 counterexample: on a store with a customer but no products, the order
payload `{"customer_id": 1, "items": [5]}` passes validation, but the lookup
of product 5 yields `None`, the `None` is appended to the collection, and
the flush raises `FlushError` — the handler does NOT return 201 and no order
row is inserted, contradicting the claimed silent drop. -/
theorem C2_counterexample :
    order_schema_load ⟨none, none, some 1, some [5]⟩ =
      Except.ok ⟨none, none, some 1, some [5]⟩ ∧
    (add_order oneCustomerState 7 ⟨none, none, some 1, some [5]⟩).1 =
      Except.error "FlushError: Can't flush None value found in collection Orders.products" ∧
    (add_order oneCustomerState 7 ⟨none, none, some 1, some [5]⟩).2.orders = [] :=
  ⟨rfl, rfl, rfl⟩

/-- C2 (amended): for every `POST /orders` payload whose items list contains
a product id with no matching Products row, the lookup result `None` is
appended to the order's product collection and the commit's flush raises
`FlushError`; the order is not inserted and no 201 is returned (the store is
left unchanged). -/
theorem C2_missing_product_faults (st : DBState) (today cid : Nat) (l : List Nat)
    (i : Nat) (hi : i ∈ l) (hmiss : ∀ pr ∈ st.products, pr.id ≠ i) :
    add_order st today ⟨none, none, some cid, some l⟩ =
      (Except.error "FlushError: Can't flush None value found in collection Orders.products",
       st) := by
  have hfind : st.products.find? (fun pr => pr.id == i) = none :=
    List.find?_eq_none.mpr (fun pr hpr => by simp [hmiss pr hpr])
  have hany : ((l.map (fun j => st.products.find? (fun pr => pr.id == j))).any
      (fun o => o.isNone)) = true := by
    rw [List.any_eq_true]
    exact ⟨none, List.mem_map.mpr ⟨i, hi, hfind⟩, rfl⟩
  simp [add_order, order_schema_load, hany]

/-- Witness for C2: a store with product 1 but no product 99; ordering
items `[1, 99]` faults and leaves the store unchanged. -/
theorem C2_missing_product_faults_witness :
    add_order shopState 3 ⟨none, none, some 1, some [1, 99]⟩ =
      (Except.error "FlushError: Can't flush None value found in collection Orders.products",
       shopState) :=
  C2_missing_product_faults shopState 3 1 [1, 99] 99 (by decide) (by decide)

/-- C3: for every existing customer and every PUT payload containing only
customer_name, `update_customer` returns 200 with the message body and the
stored row afterwards differs from the row before only in customer_name —
email and phone (and id and address) are untouched. -/
theorem C3_partial_update (st : DBState) (id : Nat) (name : String) (c : Customer)
    (hc : st.customers.find? (fun x => x.id == id) = some c) :
    (update_customer st id ⟨none, some name, none, none⟩).1 =
      Except.ok (200, Json.obj [("Message", Json.str "Customer details have been updated")]) ∧
    (update_customer st id ⟨none, some name, none, none⟩).2.customers.find?
        (fun x => x.id == id) = some { c with customer_name := name } := by
  unfold update_customer
  rw [hc]
  exact ⟨rfl, find_replaceFirst st.customers id _ c hc rfl⟩

/-- Witness for C3: renaming customer 1 leaves its email and phone intact. -/
theorem C3_partial_update_witness :
    (update_customer oneCustomerState 1 ⟨none, some "Zed", none, none⟩).1 =
      Except.ok (200, Json.obj [("Message", Json.str "Customer details have been updated")]) ∧
    (update_customer oneCustomerState 1 ⟨none, some "Zed", none, none⟩).2.customers.find?
        (fun x => x.id == 1) = some { annC with customer_name := "Zed" } :=
  C3_partial_update oneCustomerState 1 "Zed" annC rfl

/-- C4 counterexample: deleting a nonexistent customer does return 404 and
leaves the store unchanged without committing, but the body is
`{"Message": "Customer not found!"}` — its key is `"Message"`, not
`"Error"`, so the body does not have the claimed `{"Error": ...}` shape. -/
theorem C4_counterexample :
    (delete_customer emptyState 1).1 =
      (404, Json.obj [("Message", Json.str "Customer not found!")]) ∧
    isErrorBody (delete_customer emptyState 1).1.2 = false ∧
    (delete_customer emptyState 1).2 = (emptyState, false) :=
  ⟨rfl, rfl, rfl⟩

/-- C4 (amended): for every id with no matching customer row,
`DELETE /customers/<id>` returns 404 with the body
`{"Message": "Customer not found!"}` (key `"Message"`, not `"Error"`), the
store is unchanged, and no commit is issued. -/
theorem C4_delete_not_found (st : DBState) (id : Nat)
    (h : ∀ c ∈ st.customers, c.id ≠ id) :
    delete_customer st id =
      ((404, Json.obj [("Message", Json.str "Customer not found!")]), st, false) := by
  have hfil : st.customers.filter (fun c => c.id == id) = [] := by
    rw [List.filter_eq_nil_iff]
    intro a ha
    simp [h a ha]
  simp [delete_customer, hfil]

/-- Witness for C4: deleting id 2 from a store holding only id 1. -/
theorem C4_delete_not_found_witness :
    delete_customer oneCustomerState 2 =
      ((404, Json.obj [("Message", Json.str "Customer not found!")]), oneCustomerState, false) :=
  C4_delete_not_found oneCustomerState 2 (by decide)

/-- C5: deleting an existing customer removes the row, commits, and returns
200 — but the body's single key is the misspelled `"Messgae"`, not
`"Message"` as the spec states; evaluating the handler on a store holding
customer 1 exhibits the divergence. -/
theorem C5_delete_typo :
    delete_customer oneCustomerState 1 =
      ((200, Json.obj [("Messgae", Json.str "Customer sucessfully deleted! Wow!")]),
       { oneCustomerState with customers := [] }, true) :=
  rfl

/-- C6: the handler result of `POST /orders` is the same whatever
order_date the payload carries (first conjunct, for every payload and every
value of the order_date key), and every order row present after the call
either pre-existed or carries `order_date = today`, the server-side creation
date (second conjunct). -/
theorem C6_order_date_today (st : DBState) (today : Nat) (p : OrderPayload)
    (d : Option Nat) :
    add_order st today { p with order_date := d } = add_order st today p ∧
    ∀ o ∈ (add_order st today p).2.orders, o ∈ st.orders ∨ o.order_date = today := by
  obtain ⟨i, od, cid, its⟩ := p
  cases cid with
  | none =>
      refine ⟨rfl, fun o ho => Or.inl ?_⟩
      simpa [add_order, order_schema_load] using ho
  | some c =>
      cases its with
      | none =>
          refine ⟨rfl, fun o ho => Or.inl ?_⟩
          simpa [add_order, order_schema_load] using ho
      | some l =>
          refine ⟨rfl, fun o ho => ?_⟩
          cases hl : (l.map (fun j => st.products.find? (fun pr => pr.id == j))).any
              (fun x => x.isNone) with
          | true =>
              simp [add_order, order_schema_load, hl] at ho
              exact Or.inl ho
          | false =>
              simp [add_order, order_schema_load, hl] at ho
              rcases ho with ho | ho
              · exact Or.inl ho
              · exact Or.inr (by rw [ho])

/-- Witness for C6: a payload carrying `order_date = 99` yields the same
outcome as one with no order_date, and the single created order is dated
`today = 7`, not 99. -/
theorem C6_order_date_today_witness :
    add_order shopState 7 ⟨none, some 99, some 1, some [1]⟩ =
      add_order shopState 7 ⟨none, none, some 1, some [1]⟩ ∧
    ∀ o ∈ (add_order shopState 7 ⟨none, none, some 1, some [1]⟩).2.orders,
      o ∈ shopState.orders ∨ o.order_date = 7 :=
  C6_order_date_today shopState 7 ⟨none, none, some 1, some [1]⟩ (some 99)

/-- C7: `GET /customers/<id>` returns 404 with exactly
`{"Error": "Customer not found!"}` when no customer row matches the id, and
200 with the `CustomerSchema`-shaped dump of the matching row otherwise. -/
theorem C7_get_customer (st : DBState) (id : Nat) :
    ((∀ c ∈ st.customers, c.id ≠ id) →
      get_customer st id = (404, Json.obj [("Error", Json.str "Customer not found!")])) ∧
    (∀ c, st.customers.find? (fun x => x.id == id) = some c →
      get_customer st id = (200, customerDump c)) := by
  constructor
  · intro h
    have hn : st.customers.find? (fun x => x.id == id) = none :=
      List.find?_eq_none.mpr (fun x hx => by simp [h x hx])
    unfold get_customer
    rw [hn]
  · intro c hc
    exact get_customer_of_find st id c hc

/-- Witness for C7: on a store holding only customer 1, id 2 yields the 404
error body and id 1 yields the 200 dump. -/
theorem C7_get_customer_witness :
    get_customer oneCustomerState 2 =
      (404, Json.obj [("Error", Json.str "Customer not found!")]) ∧
    get_customer oneCustomerState 1 = (200, customerDump annC) :=
  ⟨(C7_get_customer oneCustomerState 2).1 (by decide),
   (C7_get_customer oneCustomerState 1).2 annC rfl⟩

/-- C8: for every id with no matching order row, `order_items` dereferences
the `None` lookup result (`order.products`) and raises `AttributeError`
rather than producing any HTTP response — in particular it never returns a
404 response. -/
theorem C8_order_items_faults (st : DBState) (id : Nat)
    (h : ∀ o ∈ st.orders, o.id ≠ id) :
    order_items st id =
      Except.error "AttributeError: NoneType object has no attribute products" ∧
    ∀ body : Json, order_items st id ≠ Except.ok (404, body) := by
  have hn : st.orders.find? (fun o => o.id == id) = none :=
    List.find?_eq_none.mpr (fun o ho => by simp [h o ho])
  have he : order_items st id =
      Except.error "AttributeError: NoneType object has no attribute products" := by
    unfold order_items
    rw [hn]
  exact ⟨he, fun body hb => by rw [he] at hb; exact Except.noConfusion hb⟩

/-- Witness for C8: the empty store has no order 1, and the handler faults. -/
theorem C8_order_items_faults_witness :
    (order_items emptyState 1 =
      Except.error "AttributeError: NoneType object has no attribute products") ∧
    ∀ body : Json, order_items emptyState 1 ≠ Except.ok (404, body) :=
  C8_order_items_faults emptyState 1 (by decide)

/-- C9: `id` is a loadable `CustomerSchema` field, so a PUT payload carrying
an `id` key makes `update_customer` `setattr` it onto the fetched entity:
the response is a 200, the stored list is the original with the first
id-matching row rewritten to carry `id := newid` (and the new name), and in
particular the rewritten row — primary key changed to `newid`, possibly
different from the path id — is in the store afterwards. -/
theorem C9_put_rewrites_id (st : DBState) (id newid : Nat) (name : String)
    (c : Customer)
    (hc : st.customers.find? (fun x => x.id == id) = some c) :
    (update_customer st id ⟨some newid, some name, none, none⟩).1 =
      Except.ok (200, Json.obj [("Message", Json.str "Customer details have been updated")]) ∧
    (update_customer st id ⟨some newid, some name, none, none⟩).2.customers =
      replaceFirst st.customers id
        (fun x => { x with id := newid, customer_name := name }) ∧
    ({ c with id := newid, customer_name := name } : Customer) ∈
      (update_customer st id ⟨some newid, some name, none, none⟩).2.customers := by
  unfold update_customer
  rw [hc]
  exact ⟨rfl, rfl,
    mem_replaceFirst st.customers id
      (fun x => applyUpdate x ⟨some newid, some name, none, none⟩) c hc⟩

/-- Witness for C9: a PUT on path id 1 with payload id 7 stores the row
under primary key 7. -/
theorem C9_put_rewrites_id_witness :
    (update_customer oneCustomerState 1 ⟨some 7, some "Zed", none, none⟩).1 =
      Except.ok (200, Json.obj [("Message", Json.str "Customer details have been updated")]) ∧
    (update_customer oneCustomerState 1 ⟨some 7, some "Zed", none, none⟩).2.customers =
      replaceFirst oneCustomerState.customers 1
        (fun x => { x with id := 7, customer_name := "Zed" }) ∧
    ({ annC with id := 7, customer_name := "Zed" } : Customer) ∈
      (update_customer oneCustomerState 1 ⟨some 7, some "Zed", none, none⟩).2.customers :=
  C9_put_rewrites_id oneCustomerState 1 7 "Zed" annC rfl

/-- C10: a `POST /orders` payload with customer_id but no items key passes
`OrderSchema` validation (items is only an inferred `Meta.fields` entry,
not required), and `add_order` then raises `KeyError` at
`order_data['items']` with the store unchanged — no order inserted, and not
a 400 validation response. -/
theorem C10_missing_items_faults (st : DBState) (today cid : Nat) :
    order_schema_load ⟨none, none, some cid, none⟩ =
      Except.ok ⟨none, none, some cid, none⟩ ∧
    add_order st today ⟨none, none, some cid, none⟩ =
      (Except.error "KeyError: items", st) :=
  ⟨rfl, rfl⟩

end EcomApp
